import Mathlib

/-!
Shallow embedding of the `rustboy9001` Game Boy ROM-header decoder
(`src/rom.rs`, `src/util.rs`) and proofs of the specification claims.

Modelling conventions:
* A Rust `Vec<u8>` / `&[u8]` is a `List Nat`; where a claim needs the
  byte invariant, the hypothesis `∀ b ∈ buf, b < 256` is carried explicitly.
* Rust `String` values produced by `util::bytes_to_string` are modelled by
  their UTF-8 byte lists (the conversion is injective, so string equality
  coincides with byte-list equality; the empty string is `[]`).
* `u16` wrapping arithmetic is `Nat` arithmetic reduced `% 65536`.
* A Rust `panic!` is modelled as a dedicated result constructor, distinct
  from `RomLoadError::FormatError`.
-/

set_option maxRecDepth 40000

namespace Rustboy

/-! ## Header address constants (src/rom.rs lines 17-34) -/

def ENTRY_POINT_ADDR : Nat := 0x0100
def NINTENDO_LOGO_ADDR : Nat := 0x0104
def TITLE_ADDR : Nat := 0x0134
def MANUFACTURER_CODE_ADDR : Nat := 0x013F
def CGB_FLAG_ADDR : Nat := 0x0143
def NEW_LICENSEE_CODE_ADDR : Nat := 0x0144
def SGB_FLAG_ADDR : Nat := 0x0146
def CARTRIDGE_TYPE_ADDR : Nat := 0x0147
def ROM_SIZE_ADDR : Nat := 0x0148
def RAM_SIZE_ADDR : Nat := 0x0149
def DESTINATION_CODE_ADDR : Nat := 0x014A
def OLD_LICENSEE_CODE_ADDR : Nat := 0x014B
def MASK_ROM_VERSION_NUMBER_ADDR : Nat := 0x014C
def HEADER_CHECKSUM_ADDR : Nat := 0x014D
def GLOBAL_CHECKSUM_ADDR : Nat := 0x014E

/-- Flag that says a cartridge is the new format. -/
def NEW_CARTRIDGE_FLAG : Nat := 0x33

/-- Nintendo logo constant (src/rom.rs lines 37-40). -/
def VALID_NINTENDO_LOGO : List Nat :=
  [0xCE, 0xED, 0x66, 0x66, 0xCC, 0x0D, 0x00, 0x0B, 0x03, 0x73, 0x00, 0x83, 0x00, 0x0C, 0x00, 0x0D,
   0x00, 0x08, 0x11, 0x1F, 0x88, 0x89, 0x00, 0x0E, 0xDC, 0xCC, 0x6E, 0xE6, 0xDD, 0xDD, 0xD9, 0x99,
   0xBB, 0xBB, 0x67, 0x63, 0x6E, 0x0E, 0xEC, 0xCC, 0xDD, 0xDC, 0x99, 0x9F, 0xBB, 0xB9, 0x33, 0x3E]

/-! ## Enumerated header fields (src/rom.rs lines 63-294) -/

/-- Represents the flags that specify GameBoy Color functionality. -/
inductive CgbFlag where
  | NoCgb
  | SupportsCgb
  | CgbOnly
deriving DecidableEq

def CgbFlag.from_u8 (n : Nat) : Option CgbFlag :=
  match n with
  | 0x00 => some NoCgb
  | 0x80 => some SupportsCgb
  | 0xC0 => some CgbOnly
  | _ => none

/-- Represents the flags that specify Super GameBoy functionality. -/
inductive SgbFlag where
  | NoSgbSupport
  | SgbSupport
deriving DecidableEq

def SgbFlag.from_u8 (n : Nat) : Option SgbFlag :=
  match n with
  | 0x00 => some NoSgbSupport
  | 0x03 => some SgbSupport
  | _ => none

/-- Represents the various cartridge types that exist. -/
inductive CartridgeType where
  | Rom
  | Mbc1
  | Mbc1Ram
  | Mbc1RamBattery
  | Mbc2
  | Mbc2Battery
  | RomRam
  | RomRamBattery
  | Mmm01
  | Mmm01Ram
  | Mmm01RamBattery
  | Mbc3TimerBattery
  | Mbc3TimerRamBattery
  | Mbc3
  | Mbc3Ram
  | Mbc3RamBattery
  | Mbc4
  | Mbc4Ram
  | Mbc4RamBattery
  | Mbc5
  | Mbc5Ram
  | Mbc5RamBattery
  | Mbc5Rumble
  | Mbc5RumbleRam
  | Mbc5RumbleRamBattery
  | Mbc6
  | Mbc7SensorRumbleRamBattery
  | PocketCamera
  | BandaiTama5
  | HuC3
  | HuC1RamBattery
deriving DecidableEq

def CartridgeType.from_u8 (n : Nat) : Option CartridgeType :=
  match n with
  | 0x00 => some Rom
  | 0x01 => some Mbc1
  | 0x02 => some Mbc1Ram
  | 0x03 => some Mbc1RamBattery
  | 0x05 => some Mbc2
  | 0x06 => some Mbc2Battery
  | 0x08 => some RomRam
  | 0x09 => some RomRamBattery
  | 0x0B => some Mmm01
  | 0x0C => some Mmm01Ram
  | 0x0D => some Mmm01RamBattery
  | 0x0F => some Mbc3TimerBattery
  | 0x10 => some Mbc3TimerRamBattery
  | 0x11 => some Mbc3
  | 0x12 => some Mbc3Ram
  | 0x13 => some Mbc3RamBattery
  | 0x15 => some Mbc4
  | 0x16 => some Mbc4Ram
  | 0x17 => some Mbc4RamBattery
  | 0x19 => some Mbc5
  | 0x1A => some Mbc5Ram
  | 0x1B => some Mbc5RamBattery
  | 0x1C => some Mbc5Rumble
  | 0x1D => some Mbc5RumbleRam
  | 0x1E => some Mbc5RumbleRamBattery
  | 0x20 => some Mbc6
  | 0x22 => some Mbc7SensorRumbleRamBattery
  | 0xFC => some PocketCamera
  | 0xFD => some BandaiTama5
  | 0xFE => some HuC3
  | 0xFF => some HuC1RamBattery
  | _ => none

/-- Represents the varying amounts of ROM sizes that exist. -/
inductive RomSize where
  | RomBanks0
  | RomBanks4
  | RomBanks8
  | RomBanks16
  | RomBanks32
  | RomBanks64
  | RomBanks128
  | RomBanks256
  | RomBanks72
  | RomBanks80
  | RomBanks96
deriving DecidableEq

def RomSize.from_u8 (n : Nat) : Option RomSize :=
  match n with
  | 0x00 => some RomBanks0
  | 0x01 => some RomBanks4
  | 0x02 => some RomBanks8
  | 0x03 => some RomBanks16
  | 0x04 => some RomBanks32
  | 0x05 => some RomBanks64
  | 0x06 => some RomBanks128
  | 0x07 => some RomBanks256
  | 0x52 => some RomBanks72
  | 0x53 => some RomBanks80
  | 0x54 => some RomBanks96
  | _ => none

/-- Represents the varying amounts of on-cartridge RAM sizes that exist. -/
inductive RamSize where
  | RamNone
  | Ram2K
  | Ram8K
  | Ram32K
  | Ram64K
  | Ram128K
deriving DecidableEq

def RamSize.from_u8 (n : Nat) : Option RamSize :=
  match n with
  | 0x00 => some RamNone
  | 0x01 => some Ram2K
  | 0x02 => some Ram8K
  | 0x03 => some Ram32K
  | 0x04 => some Ram128K
  | 0x05 => some Ram64K
  | _ => none

/-- Represents the ROM's destination code. -/
inductive DestinationCode where
  | Japanese
  | NonJapanese
deriving DecidableEq

def DestinationCode.from_u8 (n : Nat) : Option DestinationCode :=
  match n with
  | 0x00 => some Japanese
  | 0x01 => some NonJapanese
  | _ => none

/-! ## Decode results

Rust's `Result<Rom, RomLoadError>` together with the possibility of a
`panic!` inside `util::bytes_to_string` / `util::get_subarray_of_vector`
is modelled by a three-way result: success, `RomLoadError::FormatError`
(the only `RomLoadError` constructor `from_buffer` can produce), and panic. -/

inductive DResult (α : Type) where
  | ok (v : α)
  | fmtErr (msg : String)
  | panicked (msg : String)
deriving DecidableEq

instance : Monad DResult where
  pure := DResult.ok
  bind := fun m f =>
    match m with
    | .ok v => f v
    | .fmtErr msg => .fmtErr msg
    | .panicked msg => .panicked msg

@[simp] theorem DResult.ok_bind {α β : Type} (v : α) (f : α → DResult β) :
    (DResult.ok v >>= f) = f v := rfl

@[simp] theorem DResult.fmtErr_bind {α β : Type} (msg : String) (f : α → DResult β) :
    (DResult.fmtErr msg >>= f) = DResult.fmtErr msg := rfl

@[simp] theorem DResult.panicked_bind {α β : Type} (msg : String) (f : α → DResult β) :
    (DResult.panicked msg >>= f) = DResult.panicked msg := rfl

@[simp] theorem DResult.pure_eq_ok {α : Type} (v : α) :
    (pure v : DResult α) = DResult.ok v := rfl

/-- Converts a lookup result into a decode step, failing with the given
format-error message when the lookup missed (models Rust's
`option.ok_or_else(|| format!(...))` fed through `try!`). -/
def require {α : Type} (o : Option α) (msg : String) : DResult α :=
  match o with
  | some v => .ok v
  | none => .fmtErr msg

/-! ## Formatting helpers ( Rust `format!` fragments used in messages) -/

/-- Uppercase hexadecimal digit for a value below 16 (as in Rust `{:#X}`
formatting; braces here describe the Rust format string only). -/
def hexChar (n : Nat) : Char :=
  if n < 10 then Char.ofNat (48 + n) else Char.ofNat (55 + n)

/-- Uppercase hexadecimal digit string of a number, no leading zeroes,
at least one digit. -/
def hexChars (n : Nat) : List Char :=
  if _h : n < 16 then [hexChar n]
  else hexChars (n / 16) ++ [hexChar (n % 16)]
termination_by n
decreasing_by exact Nat.div_lt_self (by omega) (by omega)

/-- Rust `{:#X}` formatting: `0x` followed by uppercase hex digits. -/
def fmtHexU (n : Nat) : String := "0x" ++ String.mk (hexChars n)

/-! ## util.rs helpers -/

/-- Validates a byte sequence as UTF-8, exactly as Rust's
`str::from_utf8` does (RFC 3629: no overlong forms, no surrogates,
no code points above U+10FFFF). -/
def utf8Valid : List Nat → Bool
  | [] => true
  | b :: rest =>
    if b ≤ 0x7F then utf8Valid rest
    else if 0xC2 ≤ b ∧ b ≤ 0xDF then
      match rest with
      | c1 :: r => (0x80 ≤ c1 && c1 ≤ 0xBF) && utf8Valid r
      | [] => false
    else if b = 0xE0 then
      match rest with
      | c1 :: c2 :: r => (0xA0 ≤ c1 && c1 ≤ 0xBF) && (0x80 ≤ c2 && c2 ≤ 0xBF) && utf8Valid r
      | _ => false
    else if (0xE1 ≤ b ∧ b ≤ 0xEC) ∨ b = 0xEE ∨ b = 0xEF then
      match rest with
      | c1 :: c2 :: r => (0x80 ≤ c1 && c1 ≤ 0xBF) && (0x80 ≤ c2 && c2 ≤ 0xBF) && utf8Valid r
      | _ => false
    else if b = 0xED then
      match rest with
      | c1 :: c2 :: r => (0x80 ≤ c1 && c1 ≤ 0x9F) && (0x80 ≤ c2 && c2 ≤ 0xBF) && utf8Valid r
      | _ => false
    else if b = 0xF0 then
      match rest with
      | c1 :: c2 :: c3 :: r =>
        (0x90 ≤ c1 && c1 ≤ 0xBF) && (0x80 ≤ c2 && c2 ≤ 0xBF) && (0x80 ≤ c3 && c3 ≤ 0xBF) &&
          utf8Valid r
      | _ => false
    else if 0xF1 ≤ b ∧ b ≤ 0xF3 then
      match rest with
      | c1 :: c2 :: c3 :: r =>
        (0x80 ≤ c1 && c1 ≤ 0xBF) && (0x80 ≤ c2 && c2 ≤ 0xBF) && (0x80 ≤ c3 && c3 ≤ 0xBF) &&
          utf8Valid r
      | _ => false
    else if b = 0xF4 then
      match rest with
      | c1 :: c2 :: c3 :: r =>
        (0x80 ≤ c1 && c1 ≤ 0x8F) && (0x80 ≤ c2 && c2 ≤ 0xBF) && (0x80 ≤ c3 && c3 ≤ 0xBF) &&
          utf8Valid r
      | _ => false
    else false

/-- Rust slice `&buf[s..e]`: elements at indices `s, s+1, ..., e-1`. -/
def listSlice (l : List Nat) (s e : Nat) : List Nat := (l.drop s).take (e - s)

/-- Models `util::bytes_to_string` (src/util.rs lines 22-27): the string is
represented by its UTF-8 byte list; invalid UTF-8 panics. -/
def bytes_to_string (bytes : List Nat) : DResult (List Nat) :=
  if utf8Valid bytes then .ok bytes else .panicked "Invalid UTF-8 sequence"

/-- Models `util::get_subarray_of_vector` (src/util.rs lines 9-19): copies
`len` bytes starting at `start` out of `vec`; its explicit bounds check
panics one byte late, so a one-byte-short vector instead panics on the
final index of the copy loop. -/
def get_subarray_of_vector (len start : Nat) (vec : List Nat) : DResult (List Nat) :=
  if vec.length < start + len - 1 then
    .panicked "Error! Attempting to read past the end of a vector"
  else if vec.length < start + len then
    .panicked "index out of bounds"
  else
    .ok ((vec.drop start).take len)

/-! ## The Rom record (src/rom.rs lines 296-315) -/

/-- Represents a ROM file and its header metadata. Text fields hold the
UTF-8 bytes of the corresponding Rust `String`. -/
structure Rom where
  entry_point : List Nat
  nintendo_logo : List Nat
  title : List Nat
  manufacturer_code : List Nat
  cgb_flag : CgbFlag
  new_licensee_code : List Nat
  sgb_flag : SgbFlag
  cartridge_type : CartridgeType
  rom_size : RomSize
  ram_size : RamSize
  destination_code : DestinationCode
  old_licensee_code : Nat
  mask_rom_version_number : Nat
  header_checksum : Nat
  global_checksum : Nat
  new_cartridge : Bool
  rom_data : List Nat
deriving DecidableEq

/-- Decode step for the CGB flag (src/rom.rs lines 363-367): consulted and
validated only for new-style cartridges; otherwise constantly `NoCgb`. -/
def cgbFlagStep (new_cartridge : Bool) (b : Nat) : DResult CgbFlag :=
  if new_cartridge then
    require (CgbFlag.from_u8 b) ("Invalid CGB flag: " ++ fmtHexU b)
  else
    pure CgbFlag.NoCgb

/-- Decode step for the two new-style-only text fields (src/rom.rs lines
393-394): the byte range is interpreted as text only for new-style
cartridges; otherwise the field is the empty string. -/
def textFieldStep (new_cartridge : Bool) (bytes : List Nat) : DResult (List Nat) :=
  if new_cartridge then bytes_to_string bytes else pure []

/-- Models `Rom::from_buffer` (src/rom.rs lines 344-408). Byte reads
`buf[i]` are modelled with `List.getD` (index `i` is in bounds on every
path that reaches it, given the size check). Evaluation order follows the
source: size check, subarray reads, the six enum lookups in order, then
the three text conversions (which sit in the struct literal in the
source and therefore run after all enum validation). -/
def Rom.from_buffer (buf : List Nat) : DResult Rom :=
  if buf.length ≤ GLOBAL_CHECKSUM_ADDR + 1 then
    .fmtErr ("ROM file is too small. Size: " ++ toString buf.length ++ " bytes")
  else
    let new_cartridge := decide (buf.getD OLD_LICENSEE_CODE_ADDR 0 = NEW_CARTRIDGE_FLAG)
    let title_end_addr := if new_cartridge then MANUFACTURER_CODE_ADDR else NEW_LICENSEE_CODE_ADDR
    do
      let entry_point ← get_subarray_of_vector 4 ENTRY_POINT_ADDR buf
      let nintendo_logo ← get_subarray_of_vector 48 NINTENDO_LOGO_ADDR buf
      let cgb_flag ← cgbFlagStep new_cartridge (buf.getD CGB_FLAG_ADDR 0)
      let sgb_flag ← require (SgbFlag.from_u8 (buf.getD SGB_FLAG_ADDR 0))
        ("Invalid SGB flag: " ++ fmtHexU (buf.getD SGB_FLAG_ADDR 0))
      let cartridge_type ← require (CartridgeType.from_u8 (buf.getD CARTRIDGE_TYPE_ADDR 0))
        ("Invalid cartridge type flag: " ++ fmtHexU (buf.getD CARTRIDGE_TYPE_ADDR 0))
      let rom_size ← require (RomSize.from_u8 (buf.getD ROM_SIZE_ADDR 0))
        ("Invalid ROM size flag: " ++ fmtHexU (buf.getD ROM_SIZE_ADDR 0))
      let ram_size ← require (RamSize.from_u8 (buf.getD RAM_SIZE_ADDR 0))
        ("Invalid RAM size flag: " ++ fmtHexU (buf.getD RAM_SIZE_ADDR 0))
      let destination_code ← require (DestinationCode.from_u8 (buf.getD DESTINATION_CODE_ADDR 0))
        ("Invalid destination code: " ++ fmtHexU (buf.getD DESTINATION_CODE_ADDR 0))
      let title ← bytes_to_string (listSlice buf TITLE_ADDR title_end_addr)
      let manufacturer_code ←
        textFieldStep new_cartridge (listSlice buf MANUFACTURER_CODE_ADDR CGB_FLAG_ADDR)
      let new_licensee_code ←
        textFieldStep new_cartridge (listSlice buf NEW_LICENSEE_CODE_ADDR SGB_FLAG_ADDR)
      pure {
        entry_point := entry_point
        nintendo_logo := nintendo_logo
        title := title
        manufacturer_code := manufacturer_code
        cgb_flag := cgb_flag
        new_licensee_code := new_licensee_code
        sgb_flag := sgb_flag
        cartridge_type := cartridge_type
        rom_size := rom_size
        ram_size := ram_size
        destination_code := destination_code
        old_licensee_code := buf.getD OLD_LICENSEE_CODE_ADDR 0
        mask_rom_version_number := buf.getD MASK_ROM_VERSION_NUMBER_ADDR 0
        header_checksum := buf.getD HEADER_CHECKSUM_ADDR 0
        global_checksum :=
          ((buf.getD GLOBAL_CHECKSUM_ADDR 0) <<< 8) ||| (buf.getD (GLOBAL_CHECKSUM_ADDR + 1) 0)
        new_cartridge := new_cartridge
        rom_data := buf }

/-! ## Validation predicates (src/rom.rs lines 410-437) -/

/-- Wrapping 16-bit subtraction `a.wrapping_sub(b)` on `Nat` representatives. -/
def wsub16 (a b : Nat) : Nat := (a + 65536 - b % 65536) % 65536

/-- Wrapping 16-bit addition `a.wrapping_add(b)` on `Nat` representatives. -/
def wadd16 (a b : Nat) : Nat := (a + b % 65536) % 65536

/-- Says whether the header checksum is valid (src/rom.rs lines 411-419):
a `u16` accumulator starting at 0 has each byte of
`rom_data[TITLE_ADDR..HEADER_CHECKSUM_ADDR]` and then an extra 1
subtracted from it with wraparound; its low byte is compared with the
stored `header_checksum`. -/
def Rom.is_header_checksum_valid (rom : Rom) : Bool :=
  let acc := (List.range' TITLE_ADDR (HEADER_CHECKSUM_ADDR - TITLE_ADDR)).foldl
    (fun a i => wsub16 (wsub16 a (rom.rom_data.getD i 0)) 1) 0
  decide (acc % 256 = rom.header_checksum)

/-- Says whether the global checksum is valid (src/rom.rs lines 422-432):
a `u16` accumulator starting at 0 wrapping-adds every byte of `rom_data`
whose index is neither `GLOBAL_CHECKSUM_ADDR` nor
`GLOBAL_CHECKSUM_ADDR + 1`; the result is compared with the stored
`global_checksum`. -/
def Rom.is_global_checksum_valid (rom : Rom) : Bool :=
  let acc := rom.rom_data.enum.foldl
    (fun a p =>
      if p.1 ≠ GLOBAL_CHECKSUM_ADDR ∧ p.1 ≠ GLOBAL_CHECKSUM_ADDR + 1 then wadd16 a p.2 else a) 0
  decide (acc = rom.global_checksum)

/-- Element-wise comparison of a logo field with the reference constant,
as the iterator chain `zip ... all` does. -/
def logoMatches (logo : List Nat) : Bool :=
  (logo.zip VALID_NINTENDO_LOGO).all fun p => p.1 == p.2

/-- Says whether the Nintendo logo is valid (src/rom.rs lines 435-437). -/
def Rom.is_nintendo_logo_valid (rom : Rom) : Bool :=
  logoMatches rom.nintendo_logo

/-! ## Inversion lemmas for the decode chain -/

theorem DResult.bind_eq_ok {α β : Type} {m : DResult α} {f : α → DResult β} {r : β}
    (h : m >>= f = DResult.ok r) : ∃ v, m = DResult.ok v ∧ f v = DResult.ok r := by
  cases m with
  | ok v => exact ⟨v, rfl, h⟩
  | fmtErr msg => simp at h
  | panicked msg => simp at h

theorem require_eq_ok {α : Type} {o : Option α} {msg : String} {v : α}
    (h : require o msg = DResult.ok v) : o = some v := by
  cases o with
  | some w => simpa [require] using h
  | none => simp [require] at h

theorem bytes_to_string_eq_ok {s v : List Nat}
    (h : bytes_to_string s = DResult.ok v) : v = s := by
  unfold bytes_to_string at h
  split at h
  · exact (DResult.ok.injEq _ _ ▸ h).symm
  · simp at h

theorem get_subarray_eq_ok {len start : Nat} {vec : List Nat} {v : List Nat}
    (h : get_subarray_of_vector len start vec = DResult.ok v) :
    v = (vec.drop start).take len := by
  unfold get_subarray_of_vector at h
  split at h
  · simp at h
  · split at h
    · simp at h
    · exact (DResult.ok.injEq _ _ ▸ h).symm

/-- Full characterisation of the fields of a successfully decoded `Rom`
in terms of the input buffer. -/
theorem from_buffer_ok_inv {buf : List Nat} {rom : Rom}
    (h : Rom.from_buffer buf = DResult.ok rom) :
    GLOBAL_CHECKSUM_ADDR + 1 < buf.length
    ∧ rom.new_cartridge = decide (buf.getD OLD_LICENSEE_CODE_ADDR 0 = NEW_CARTRIDGE_FLAG)
    ∧ rom.entry_point = (buf.drop ENTRY_POINT_ADDR).take 4
    ∧ rom.nintendo_logo = (buf.drop NINTENDO_LOGO_ADDR).take 48
    ∧ rom.title = listSlice buf TITLE_ADDR
        (if buf.getD OLD_LICENSEE_CODE_ADDR 0 = NEW_CARTRIDGE_FLAG then MANUFACTURER_CODE_ADDR
         else NEW_LICENSEE_CODE_ADDR)
    ∧ (buf.getD OLD_LICENSEE_CODE_ADDR 0 ≠ NEW_CARTRIDGE_FLAG →
        rom.manufacturer_code = [] ∧ rom.new_licensee_code = [] ∧ rom.cgb_flag = CgbFlag.NoCgb)
    ∧ rom.old_licensee_code = buf.getD OLD_LICENSEE_CODE_ADDR 0
    ∧ rom.mask_rom_version_number = buf.getD MASK_ROM_VERSION_NUMBER_ADDR 0
    ∧ rom.header_checksum = buf.getD HEADER_CHECKSUM_ADDR 0
    ∧ rom.global_checksum =
        ((buf.getD GLOBAL_CHECKSUM_ADDR 0) <<< 8) ||| buf.getD (GLOBAL_CHECKSUM_ADDR + 1) 0
    ∧ rom.rom_data = buf
    ∧ SgbFlag.from_u8 (buf.getD SGB_FLAG_ADDR 0) = some rom.sgb_flag := by
  rw [Rom.from_buffer] at h
  split at h
  · exact absurd h (by simp)
  next hlen =>
    obtain ⟨ep, hep, h⟩ := DResult.bind_eq_ok h
    obtain ⟨logo, hlogo, h⟩ := DResult.bind_eq_ok h
    obtain ⟨cgb, hcgb, h⟩ := DResult.bind_eq_ok h
    obtain ⟨sgb, hsgb, h⟩ := DResult.bind_eq_ok h
    obtain ⟨cart, hcart, h⟩ := DResult.bind_eq_ok h
    obtain ⟨rsz, hrsz, h⟩ := DResult.bind_eq_ok h
    obtain ⟨msz, hmsz, h⟩ := DResult.bind_eq_ok h
    obtain ⟨dst, hdst, h⟩ := DResult.bind_eq_ok h
    obtain ⟨ttl, httl, h⟩ := DResult.bind_eq_ok h
    obtain ⟨mfr, hmfr, h⟩ := DResult.bind_eq_ok h
    obtain ⟨nlc, hnlc, h⟩ := DResult.bind_eq_ok h
    simp only [DResult.pure_eq_ok, DResult.ok.injEq] at h
    subst h
    refine ⟨by omega, by simp, ?_, ?_, ?_, ?_, by simp, by simp, by simp, by simp, by simp, ?_⟩
    · simpa using get_subarray_eq_ok hep
    · simpa using get_subarray_eq_ok hlogo
    · have h9 := bytes_to_string_eq_ok httl
      by_cases hnc : buf.getD OLD_LICENSEE_CODE_ADDR 0 = NEW_CARTRIDGE_FLAG
      · rw [if_pos hnc]
        rw [decide_eq_true hnc] at h9
        simpa using h9
      · rw [if_neg hnc]
        rw [decide_eq_false hnc] at h9
        simpa using h9
    · intro hnc
      rw [decide_eq_false hnc] at hcgb hmfr hnlc
      refine ⟨?_, ?_, ?_⟩
      · simpa [textFieldStep] using hmfr.symm
      · simpa [textFieldStep] using hnlc.symm
      · simpa [cgbFlagStep] using hcgb.symm
    · exact require_eq_ok hsgb

/-! ## Inversion lemmas for the failure paths -/

theorem DResult.bind_eq_fmtErr {α β : Type} {m : DResult α} {f : α → DResult β} {msg : String}
    (h : m >>= f = DResult.fmtErr msg) :
    m = DResult.fmtErr msg ∨ ∃ v, m = DResult.ok v ∧ f v = DResult.fmtErr msg := by
  cases m with
  | ok v => exact Or.inr ⟨v, rfl, h⟩
  | fmtErr m2 => simp_all
  | panicked m2 => simp at h

theorem require_eq_fmtErr {α : Type} {o : Option α} {m msg : String}
    (h : require o m = DResult.fmtErr msg) : o = none ∧ msg = m := by
  cases o <;> simp_all [require]

theorem get_subarray_ne_fmtErr {len start : Nat} {vec : List Nat} {msg : String} :
    get_subarray_of_vector len start vec ≠ DResult.fmtErr msg := by
  unfold get_subarray_of_vector
  split
  · simp
  · split <;> simp

theorem bytes_to_string_ne_fmtErr {s : List Nat} {msg : String} :
    bytes_to_string s ≠ DResult.fmtErr msg := by
  unfold bytes_to_string
  split <;> simp

theorem textFieldStep_ne_fmtErr {nc : Bool} {s : List Nat} {msg : String} :
    textFieldStep nc s ≠ DResult.fmtErr msg := by
  unfold textFieldStep
  split
  · exact bytes_to_string_ne_fmtErr
  · simp

theorem cgbFlagStep_eq_fmtErr {nc : Bool} {b : Nat} {msg : String}
    (h : cgbFlagStep nc b = DResult.fmtErr msg) :
    nc = true ∧ CgbFlag.from_u8 b = none ∧ msg = "Invalid CGB flag: " ++ fmtHexU b := by
  unfold cgbFlagStep at h
  split at h
  next hc =>
    obtain ⟨ho, hm⟩ := require_eq_fmtErr h
    exact ⟨hc, ho, hm⟩
  · simp at h

/-- Every format failure `from_buffer` can produce is either the
too-small message or one of the six field-validation messages. -/
theorem from_buffer_fmtErr_inv {buf : List Nat} {msg : String}
    (h : Rom.from_buffer buf = DResult.fmtErr msg) :
    (buf.length ≤ GLOBAL_CHECKSUM_ADDR + 1 ∧
      msg = "ROM file is too small. Size: " ++ toString buf.length ++ " bytes")
    ∨ (buf.getD OLD_LICENSEE_CODE_ADDR 0 = NEW_CARTRIDGE_FLAG
        ∧ ∃ n, msg = "Invalid CGB flag: " ++ fmtHexU n)
    ∨ (∃ n, msg = "Invalid SGB flag: " ++ fmtHexU n)
    ∨ (∃ n, msg = "Invalid cartridge type flag: " ++ fmtHexU n)
    ∨ (∃ n, msg = "Invalid ROM size flag: " ++ fmtHexU n)
    ∨ (∃ n, msg = "Invalid RAM size flag: " ++ fmtHexU n)
    ∨ (∃ n, msg = "Invalid destination code: " ++ fmtHexU n) := by
  rw [Rom.from_buffer] at h
  split at h
  next hlen =>
    exact Or.inl ⟨hlen, (DResult.fmtErr.injEq _ _ ▸ h).symm⟩
  next hlen =>
    rcases DResult.bind_eq_fmtErr h with h1 | ⟨ep, -, h⟩
    · exact absurd h1 get_subarray_ne_fmtErr
    rcases DResult.bind_eq_fmtErr h with h1 | ⟨logo, -, h⟩
    · exact absurd h1 get_subarray_ne_fmtErr
    rcases DResult.bind_eq_fmtErr h with h1 | ⟨cgb, -, h⟩
    · obtain ⟨hdec, -, hm⟩ := cgbFlagStep_eq_fmtErr h1
      exact Or.inr (Or.inl ⟨of_decide_eq_true hdec, _, hm⟩)
    rcases DResult.bind_eq_fmtErr h with h1 | ⟨sgb, -, h⟩
    · exact Or.inr (Or.inr (Or.inl ⟨_, (require_eq_fmtErr h1).2⟩))
    rcases DResult.bind_eq_fmtErr h with h1 | ⟨cart, -, h⟩
    · exact Or.inr (Or.inr (Or.inr (Or.inl ⟨_, (require_eq_fmtErr h1).2⟩)))
    rcases DResult.bind_eq_fmtErr h with h1 | ⟨rsz, -, h⟩
    · exact Or.inr (Or.inr (Or.inr (Or.inr (Or.inl ⟨_, (require_eq_fmtErr h1).2⟩))))
    rcases DResult.bind_eq_fmtErr h with h1 | ⟨msz, -, h⟩
    · exact Or.inr (Or.inr (Or.inr (Or.inr (Or.inr (Or.inl ⟨_, (require_eq_fmtErr h1).2⟩)))))
    rcases DResult.bind_eq_fmtErr h with h1 | ⟨dst, -, h⟩
    · exact Or.inr (Or.inr (Or.inr (Or.inr (Or.inr (Or.inr ⟨_, (require_eq_fmtErr h1).2⟩)))))
    rcases DResult.bind_eq_fmtErr h with h1 | ⟨ttl, -, h⟩
    · exact absurd h1 bytes_to_string_ne_fmtErr
    rcases DResult.bind_eq_fmtErr h with h1 | ⟨mfr, -, h⟩
    · exact absurd h1 textFieldStep_ne_fmtErr
    rcases DResult.bind_eq_fmtErr h with h1 | ⟨nlc, -, h⟩
    · exact absurd h1 textFieldStep_ne_fmtErr
    simp at h

/-! ## Distinguishing the failure messages

Every validation message starts with `Invalid ` while the size message
starts with `ROM file is too small. Size: `; they already differ at
character index 8 (counting from 0), regardless of the formatted values
appended after the literal prefixes. -/

theorem sizeMsg_ne_cgbMsg (m n : Nat) :
    ("ROM file is too small. Size: " ++ toString m ++ " bytes") ≠
      ("Invalid CGB flag: " ++ fmtHexU n) := by
  intro h
  have h8 : (some ' ' : Option Char) = some 'C' := congrArg (fun s => s.data[8]?) h
  exact absurd h8 (by decide)

theorem sizeMsg_ne_sgbMsg (m n : Nat) :
    ("ROM file is too small. Size: " ++ toString m ++ " bytes") ≠
      ("Invalid SGB flag: " ++ fmtHexU n) := by
  intro h
  have h8 : (some ' ' : Option Char) = some 'S' := congrArg (fun s => s.data[8]?) h
  exact absurd h8 (by decide)

theorem sizeMsg_ne_cartMsg (m n : Nat) :
    ("ROM file is too small. Size: " ++ toString m ++ " bytes") ≠
      ("Invalid cartridge type flag: " ++ fmtHexU n) := by
  intro h
  have h8 : (some ' ' : Option Char) = some 'c' := congrArg (fun s => s.data[8]?) h
  exact absurd h8 (by decide)

theorem sizeMsg_ne_romSizeMsg (m n : Nat) :
    ("ROM file is too small. Size: " ++ toString m ++ " bytes") ≠
      ("Invalid ROM size flag: " ++ fmtHexU n) := by
  intro h
  have h8 : (some ' ' : Option Char) = some 'R' := congrArg (fun s => s.data[8]?) h
  exact absurd h8 (by decide)

theorem sizeMsg_ne_ramSizeMsg (m n : Nat) :
    ("ROM file is too small. Size: " ++ toString m ++ " bytes") ≠
      ("Invalid RAM size flag: " ++ fmtHexU n) := by
  intro h
  have h8 : (some ' ' : Option Char) = some 'R' := congrArg (fun s => s.data[8]?) h
  exact absurd h8 (by decide)

theorem sizeMsg_ne_dstMsg (m n : Nat) :
    ("ROM file is too small. Size: " ++ toString m ++ " bytes") ≠
      ("Invalid destination code: " ++ fmtHexU n) := by
  intro h
  have h8 : (some ' ' : Option Char) = some 'd' := congrArg (fun s => s.data[8]?) h
  exact absurd h8 (by decide)

/-- C1: a buffer shorter than 0x0150 bytes always fails with the
too-small format failure (for any content), and a buffer of length at
least 0x0150 never produces a size failure (of any reported size). -/
theorem C1_size_check (buf : List Nat) :
    (buf.length < 0x0150 →
      Rom.from_buffer buf =
        DResult.fmtErr ("ROM file is too small. Size: " ++ toString buf.length ++ " bytes"))
    ∧ (0x0150 ≤ buf.length → ∀ n : Nat,
      Rom.from_buffer buf ≠
        DResult.fmtErr ("ROM file is too small. Size: " ++ toString n ++ " bytes")) := by
  constructor
  · intro hlen
    rw [Rom.from_buffer, if_pos (by simp only [GLOBAL_CHECKSUM_ADDR]; omega)]
  · intro hlen n h
    rcases from_buffer_fmtErr_inv h with ⟨h1, -⟩ | ⟨-, m, hm⟩ | ⟨m, hm⟩ | ⟨m, hm⟩ | ⟨m, hm⟩
      | ⟨m, hm⟩ | ⟨m, hm⟩
    · simp only [GLOBAL_CHECKSUM_ADDR] at h1
      omega
    · exact sizeMsg_ne_cgbMsg n m hm
    · exact sizeMsg_ne_sgbMsg n m hm
    · exact sizeMsg_ne_cartMsg n m hm
    · exact sizeMsg_ne_romSizeMsg n m hm
    · exact sizeMsg_ne_ramSizeMsg n m hm
    · exact sizeMsg_ne_dstMsg n m hm

/-- C1 witness: the two halves of `C1_size_check` discharged at concrete
inputs (the empty buffer, and an all-zero buffer of length 0x0150 hits no
size failure for reported size 7). -/
theorem C1_size_check_witness :
    Rom.from_buffer [] =
      DResult.fmtErr ("ROM file is too small. Size: " ++ toString (0 : Nat) ++ " bytes")
    ∧ Rom.from_buffer (List.replicate 0x0150 0) ≠
      DResult.fmtErr ("ROM file is too small. Size: " ++ toString (7 : Nat) ++ " bytes") :=
  ⟨(C1_size_check []).1 (by decide),
   (C1_size_check (List.replicate 0x0150 0)).2
     (by have := List.length_replicate 0x0150 (0 : Nat); omega) 7⟩

/-! ## Arithmetic and list bridges -/

/-- Concatenating a high byte shifted left by 8 with a low byte below 256
by bitwise or is the same as `high * 256 + low` (the big-endian reading). -/
theorem shiftLeft_lor_eq_add (a b : Nat) (hb : b < 256) : (a <<< 8) ||| b = a * 256 + b := by
  apply Nat.eq_of_testBit_eq
  intro j
  have hb' : b < 2 ^ 8 := hb
  rw [Nat.testBit_lor, Nat.testBit_shiftLeft,
    show a * 256 + b = 2 ^ 8 * a + b by ring_nf,
    Nat.testBit_mul_pow_two_add a hb' j]
  by_cases hj : j < 8
  · simp [hj, Nat.not_le_of_lt hj]
  · have hbf : b.testBit j = false := by
      apply Nat.testBit_lt_two_pow
      calc b < 2 ^ 8 := hb'
        _ ≤ 2 ^ j := Nat.pow_le_pow_right (by omega) (by omega)
    simp [hj, hbf, Nat.le_of_not_lt (by omega : ¬ j < 8)]

/-- A slice of a list is the image of its index range under default-0
indexing, provided the slice stays in bounds. -/
theorem slice_eq_map_getD (l : List Nat) (s n : Nat) (h : s + n ≤ l.length) :
    (l.drop s).take n = (List.range' s n).map (fun i => l.getD i 0) := by
  apply List.ext_getElem
  · simp only [List.length_take, List.length_drop, List.length_map, List.length_range']
    omega
  · intro i h1 h2
    have hi : i < n := by simpa using h2
    have hsi : s + i < l.length := by omega
    rw [List.getElem_take, List.getElem_drop, List.getElem_map, List.getElem_range']
    rw [show s + 1 * i = s + i by ring]
    rw [List.getD_eq_getElem l 0 hsi]

/-! ## Concrete decoded buffers shared by witnesses -/

/-- An all-zero buffer of the minimum accepted length, with the
old-licensee byte set to the new-cartridge sentinel value 0x33. -/
def newStyleZeroBuf : List Nat := (List.replicate 0x0150 0).set OLD_LICENSEE_CODE_ADDR 0x33

/-- The record `newStyleZeroBuf` decodes to. -/
def newStyleZeroRom : Rom :=
  { entry_point := List.replicate 4 0
    nintendo_logo := List.replicate 48 0
    title := List.replicate 11 0
    manufacturer_code := List.replicate 4 0
    cgb_flag := CgbFlag.NoCgb
    new_licensee_code := List.replicate 2 0
    sgb_flag := SgbFlag.NoSgbSupport
    cartridge_type := CartridgeType.Rom
    rom_size := RomSize.RomBanks0
    ram_size := RamSize.RamNone
    destination_code := DestinationCode.Japanese
    old_licensee_code := 0x33
    mask_rom_version_number := 0
    header_checksum := 0
    global_checksum := 0
    new_cartridge := true
    rom_data := newStyleZeroBuf }

theorem newStyleZeroBuf_decode : Rom.from_buffer newStyleZeroBuf = DResult.ok newStyleZeroRom := by
  decide

/-- An all-zero buffer of the minimum accepted length (old-style, since
byte 0x014B is 0 and not 0x33). -/
def oldStyleZeroBuf : List Nat := List.replicate 0x0150 0

/-- The record `oldStyleZeroBuf` decodes to; note the 16-byte title. -/
def oldStyleZeroRom : Rom :=
  { entry_point := List.replicate 4 0
    nintendo_logo := List.replicate 48 0
    title := List.replicate 16 0
    manufacturer_code := []
    cgb_flag := CgbFlag.NoCgb
    new_licensee_code := []
    sgb_flag := SgbFlag.NoSgbSupport
    cartridge_type := CartridgeType.Rom
    rom_size := RomSize.RomBanks0
    ram_size := RamSize.RamNone
    destination_code := DestinationCode.Japanese
    old_licensee_code := 0
    mask_rom_version_number := 0
    header_checksum := 0
    global_checksum := 0
    new_cartridge := false
    rom_data := oldStyleZeroBuf }

theorem oldStyleZeroBuf_decode : Rom.from_buffer oldStyleZeroBuf = DResult.ok oldStyleZeroRom := by
  decide

/-- C6: a decoded record is flagged new-style exactly when the input byte
at offset 0x014B is 0x33, and `old_licensee_code` stores that byte. -/
theorem C6_new_format_flag (buf : List Nat) (rom : Rom)
    (h : Rom.from_buffer buf = DResult.ok rom) :
    (rom.new_cartridge = true ↔ buf.getD OLD_LICENSEE_CODE_ADDR 0 = 0x33)
    ∧ rom.old_licensee_code = buf.getD OLD_LICENSEE_CODE_ADDR 0 := by
  obtain ⟨-, hnc, -, -, -, -, holc, -, -, -, -, -⟩ := from_buffer_ok_inv h
  refine ⟨?_, holc⟩
  rw [hnc]
  simp [NEW_CARTRIDGE_FLAG]

/-- C6 witness: `C6_new_format_flag` at the concrete new-style buffer. -/
theorem C6_new_format_flag_witness :
    ((newStyleZeroRom.new_cartridge = true ↔
        newStyleZeroBuf.getD OLD_LICENSEE_CODE_ADDR 0 = 0x33)
      ∧ newStyleZeroRom.old_licensee_code = newStyleZeroBuf.getD OLD_LICENSEE_CODE_ADDR 0) :=
  C6_new_format_flag newStyleZeroBuf newStyleZeroRom newStyleZeroBuf_decode

/-- C10: every successfully decoded record retains a buffer of length at
least 0x0150; all indices read by the header-checksum loop are in bounds,
and the indices enumerated by the global-checksum loop are in bounds. -/
theorem C10_checksum_accesses_in_bounds (buf : List Nat) (rom : Rom)
    (h : Rom.from_buffer buf = DResult.ok rom) :
    0x0150 ≤ rom.rom_data.length
    ∧ (∀ i, TITLE_ADDR ≤ i → i < HEADER_CHECKSUM_ADDR → i < rom.rom_data.length)
    ∧ (∀ p ∈ rom.rom_data.enum, p.1 < rom.rom_data.length) := by
  obtain ⟨hlen, -, -, -, -, -, -, -, -, -, hdata, -⟩ := from_buffer_ok_inv h
  simp only [GLOBAL_CHECKSUM_ADDR] at hlen
  refine ⟨by rw [hdata]; omega, ?_, ?_⟩
  · intro i h1 h2
    simp only [TITLE_ADDR] at h1
    simp only [HEADER_CHECKSUM_ADDR] at h2
    rw [hdata]
    omega
  · intro p hp
    rw [List.enum_eq_zip_range] at hp
    exact List.mem_range.mp (List.of_mem_zip hp).1

/-- C10 witness: `C10_checksum_accesses_in_bounds` at the concrete
new-style buffer, with the header-checksum range instantiated at 0x0134. -/
theorem C10_checksum_accesses_in_bounds_witness :
    0x0150 ≤ newStyleZeroRom.rom_data.length
    ∧ (0x0134 : Nat) < newStyleZeroRom.rom_data.length :=
  ⟨(C10_checksum_accesses_in_bounds newStyleZeroBuf newStyleZeroRom newStyleZeroBuf_decode).1,
   (C10_checksum_accesses_in_bounds newStyleZeroBuf newStyleZeroRom
      newStyleZeroBuf_decode).2.1 0x0134 (by decide) (by decide)⟩

/-- C4 (amended): the title is the text decoded from offset 0x0134 up to
the format-dependent end offset, 0x013F (11 bytes) when new-style and
0x0144 (16 bytes, not the 15 the specification states) when old-style. -/
theorem C4_title_range (buf : List Nat) (rom : Rom)
    (h : Rom.from_buffer buf = DResult.ok rom) :
    rom.title = listSlice buf TITLE_ADDR
      (if rom.new_cartridge then MANUFACTURER_CODE_ADDR else NEW_LICENSEE_CODE_ADDR)
    ∧ (rom.new_cartridge = true → rom.title.length = 11)
    ∧ (rom.new_cartridge = false → rom.title.length = 16) := by
  obtain ⟨hlen, hnc, -, -, httl, -, -, -, -, -, -, -⟩ := from_buffer_ok_inv h
  simp only [GLOBAL_CHECKSUM_ADDR] at hlen
  by_cases hb : buf.getD OLD_LICENSEE_CODE_ADDR 0 = NEW_CARTRIDGE_FLAG
  · rw [if_pos hb] at httl
    have hncT : rom.new_cartridge = true := by rw [hnc, decide_eq_true hb]
    refine ⟨by rw [hncT]; simpa using httl, ?_, ?_⟩
    · intro _
      rw [httl]
      simp only [listSlice, List.length_take, List.length_drop, TITLE_ADDR,
        MANUFACTURER_CODE_ADDR]
      omega
    · intro hf
      rw [hncT] at hf
      exact absurd hf (by simp)
  · rw [if_neg hb] at httl
    have hncF : rom.new_cartridge = false := by rw [hnc, decide_eq_false hb]
    refine ⟨by rw [hncF]; simpa using httl, ?_, ?_⟩
    · intro hf
      rw [hncF] at hf
      exact absurd hf (by simp)
    · intro _
      rw [httl]
      simp only [listSlice, List.length_take, List.length_drop, TITLE_ADDR,
        NEW_LICENSEE_CODE_ADDR]
      omega

/-- Decode summary used by the C4 counterexample: the format flag and the
title length of a successful decode. -/
def decodeSummary (buf : List Nat) : Option (Bool × Nat) :=
  match Rom.from_buffer buf with
  | DResult.ok rom => some (rom.new_cartridge, rom.title.length)
  | _ => none

/-- C4 counterexample: the all-zero old-style buffer decodes with a
16-byte title, refuting the claimed 15-byte old-style width. -/
theorem C4_title_range_counterexample :
    decodeSummary oldStyleZeroBuf = some (false, 16) ∧ (16 : Nat) ≠ 15 := by
  constructor
  · decide
  · decide

/-- C4 witness: `C4_title_range` at the concrete new-style buffer. -/
theorem C4_title_range_witness :
    newStyleZeroRom.title = listSlice newStyleZeroBuf TITLE_ADDR
      (if newStyleZeroRom.new_cartridge then MANUFACTURER_CODE_ADDR else NEW_LICENSEE_CODE_ADDR)
    ∧ newStyleZeroRom.title.length = 11 :=
  ⟨(C4_title_range newStyleZeroBuf newStyleZeroRom newStyleZeroBuf_decode).1,
   (C4_title_range newStyleZeroBuf newStyleZeroRom newStyleZeroBuf_decode).2.1 (by decide)⟩

/-! ## More message-distinction lemmas (each validation message differs
from the CGB message at character index 8) -/

theorem sgbMsg_ne_cgbMsg (m n : Nat) :
    ("Invalid SGB flag: " ++ fmtHexU m) ≠ ("Invalid CGB flag: " ++ fmtHexU n) := by
  intro h
  have h8 : (some 'S' : Option Char) = some 'C' := congrArg (fun s => s.data[8]?) h
  exact absurd h8 (by decide)

theorem cartMsg_ne_cgbMsg (m n : Nat) :
    ("Invalid cartridge type flag: " ++ fmtHexU m) ≠ ("Invalid CGB flag: " ++ fmtHexU n) := by
  intro h
  have h8 : (some 'c' : Option Char) = some 'C' := congrArg (fun s => s.data[8]?) h
  exact absurd h8 (by decide)

theorem romSizeMsg_ne_cgbMsg (m n : Nat) :
    ("Invalid ROM size flag: " ++ fmtHexU m) ≠ ("Invalid CGB flag: " ++ fmtHexU n) := by
  intro h
  have h8 : (some 'R' : Option Char) = some 'C' := congrArg (fun s => s.data[8]?) h
  exact absurd h8 (by decide)

theorem ramSizeMsg_ne_cgbMsg (m n : Nat) :
    ("Invalid RAM size flag: " ++ fmtHexU m) ≠ ("Invalid CGB flag: " ++ fmtHexU n) := by
  intro h
  have h8 : (some 'R' : Option Char) = some 'C' := congrArg (fun s => s.data[8]?) h
  exact absurd h8 (by decide)

theorem dstMsg_ne_cgbMsg (m n : Nat) :
    ("Invalid destination code: " ++ fmtHexU m) ≠ ("Invalid CGB flag: " ++ fmtHexU n) := by
  intro h
  have h8 : (some 'd' : Option Char) = some 'C' := congrArg (fun s => s.data[8]?) h
  exact absurd h8 (by decide)

/-- C5: for old-style decodes the manufacturer code and the new licensee
code are the empty string and the colour-support flag is `NoCgb`,
whatever bytes sit at offsets 0x013F-0x0145; the old-style CGB step is
the constant `NoCgb` (it never consults the raw byte), and an old-style
buffer can never produce the CGB validation failure. -/
theorem C5_old_style_fields (buf : List Nat) :
    (∀ rom, Rom.from_buffer buf = DResult.ok rom → rom.new_cartridge = false →
      rom.manufacturer_code = [] ∧ rom.new_licensee_code = [] ∧ rom.cgb_flag = CgbFlag.NoCgb)
    ∧ (∀ b, cgbFlagStep false b = DResult.ok CgbFlag.NoCgb)
    ∧ (buf.getD OLD_LICENSEE_CODE_ADDR 0 ≠ NEW_CARTRIDGE_FLAG →
      ∀ msg, Rom.from_buffer buf = DResult.fmtErr msg →
        ∀ n, msg ≠ "Invalid CGB flag: " ++ fmtHexU n) := by
  refine ⟨?_, ?_, ?_⟩
  · intro rom h hold
    obtain ⟨-, hnc, -, -, -, holdf, -, -, -, -, -, -⟩ := from_buffer_ok_inv h
    apply holdf
    intro hc
    rw [hnc, decide_eq_true hc] at hold
    simp at hold
  · intro b
    simp [cgbFlagStep]
  · intro hbyte msg h n
    rcases from_buffer_fmtErr_inv h with ⟨-, hm⟩ | ⟨hc, -⟩ | ⟨m, hm⟩ | ⟨m, hm⟩ | ⟨m, hm⟩
      | ⟨m, hm⟩ | ⟨m, hm⟩
    · rw [hm]; exact sizeMsg_ne_cgbMsg _ _
    · exact absurd hc hbyte
    · rw [hm]; exact sgbMsg_ne_cgbMsg _ _
    · rw [hm]; exact cartMsg_ne_cgbMsg _ _
    · rw [hm]; exact romSizeMsg_ne_cgbMsg _ _
    · rw [hm]; exact ramSizeMsg_ne_cgbMsg _ _
    · rw [hm]; exact dstMsg_ne_cgbMsg _ _

/-- C5 witness: `C5_old_style_fields` at the concrete old-style buffer,
plus the constant CGB step at the would-be-invalid byte 0x42. -/
theorem C5_old_style_fields_witness :
    (oldStyleZeroRom.manufacturer_code = [] ∧ oldStyleZeroRom.new_licensee_code = []
      ∧ oldStyleZeroRom.cgb_flag = CgbFlag.NoCgb)
    ∧ cgbFlagStep false 0x42 = DResult.ok CgbFlag.NoCgb :=
  ⟨(C5_old_style_fields oldStyleZeroBuf).1 oldStyleZeroRom oldStyleZeroBuf_decode rfl,
   (C5_old_style_fields oldStyleZeroBuf).2.1 0x42⟩

/-! ## Logo comparison -/

/-- Element-wise `zip`-and-`all` equality testing coincides with list
equality when the lengths agree. -/
theorem zip_all_eq_iff (l : List Nat) : ∀ m : List Nat, l.length = m.length →
    (((l.zip m).all fun p => p.1 == p.2) = true ↔ l = m) := by
  induction l with
  | nil =>
    intro m h
    cases m with
    | nil => simp
    | cons b m => simp at h
  | cons a l ih =>
    intro m h
    cases m with
    | nil => simp at h
    | cons b m =>
      simp only [List.zip_cons_cons, List.all_cons, Bool.and_eq_true, beq_iff_eq,
        List.cons.injEq]
      rw [ih m (by simpa using h)]

/-- C9: a decoded record's logo check succeeds exactly when the 48-byte
logo field equals the reference constant byte for byte; and changing any
single byte of a matching logo makes the check fail. -/
theorem C9_logo_check (buf : List Nat) (rom : Rom)
    (h : Rom.from_buffer buf = DResult.ok rom) :
    (rom.is_nintendo_logo_valid = true ↔ rom.nintendo_logo = VALID_NINTENDO_LOGO)
    ∧ (∀ i v, i < 48 → v ≠ VALID_NINTENDO_LOGO.getD i 0 →
        logoMatches (VALID_NINTENDO_LOGO.set i v) = false) := by
  obtain ⟨hlen, -, -, hlogo, -, -, -, -, -, -, -, -⟩ := from_buffer_ok_inv h
  simp only [GLOBAL_CHECKSUM_ADDR] at hlen
  constructor
  · have h48 : rom.nintendo_logo.length = 48 := by
      rw [hlogo]
      simp only [List.length_take, List.length_drop, NINTENDO_LOGO_ADDR]
      omega
    unfold Rom.is_nintendo_logo_valid logoMatches
    exact zip_all_eq_iff rom.nintendo_logo VALID_NINTENDO_LOGO
      (by rw [h48]; decide)
  · intro i v hi hv
    have hlen48 : (VALID_NINTENDO_LOGO.set i v).length = VALID_NINTENDO_LOGO.length := by
      simp
    rw [← Bool.not_eq_true, logoMatches, zip_all_eq_iff _ _ hlen48]
    intro heq
    apply hv
    have hiv : i < VALID_NINTENDO_LOGO.length := by
      rw [show VALID_NINTENDO_LOGO.length = 48 from rfl]
      exact hi
    have hgot : (VALID_NINTENDO_LOGO.set i v).getD i 0 = VALID_NINTENDO_LOGO.getD i 0 :=
      congrArg (fun l => l.getD i 0) heq
    rw [List.getD_eq_getElem _ 0 (by simpa using hiv), List.getD_eq_getElem _ 0 hiv] at hgot
    rw [List.getD_eq_getElem _ 0 hiv]
    rw [← hgot]
    simp [List.getElem_set]

/-- C9 witness: `C9_logo_check` at the concrete new-style buffer, with a
single-byte change at index 0 (0xCE changed to 0x00). -/
theorem C9_logo_check_witness :
    (newStyleZeroRom.is_nintendo_logo_valid = true ↔
      newStyleZeroRom.nintendo_logo = VALID_NINTENDO_LOGO)
    ∧ logoMatches (VALID_NINTENDO_LOGO.set 0 0) = false :=
  ⟨(C9_logo_check newStyleZeroBuf newStyleZeroRom newStyleZeroBuf_decode).1,
   (C9_logo_check newStyleZeroBuf newStyleZeroRom newStyleZeroBuf_decode).2 0 0 (by decide)
     (by decide)⟩

/-! ## Header checksum (C2) -/

/-- Claim-side header-checksum accumulator, written from the
specification's description: starting from zero, each byte of the range
is subtracted and then one more is subtracted, with reduction modulo
2^16 after every operation (in the integers with `Int.emod`, so the
value always lies in [0, 65536)). -/
def headerChecksumSpecAcc (bytes : List Nat) : Int :=
  bytes.foldl (fun x (b : Nat) => ((x - (b : Int)) % 65536 - 1) % 65536) 0

/-- One step of the code's wrapping subtract-byte-then-decrement loop
agrees with the claim-side integer formulation. -/
theorem wsub_step (a b : Nat) :
    ((wsub16 (wsub16 a b) 1 : Nat) : Int) = (((a : Int) - (b : Int)) % 65536 - 1) % 65536 := by
  unfold wsub16
  omega

/-- The code's wrapping fold agrees with the claim-side integer fold. -/
theorem foldl_wsub_eq_int (l : List Nat) : ∀ a : Nat,
    ((l.foldl (fun x b => wsub16 (wsub16 x b) 1) a : Nat) : Int)
      = l.foldl (fun x (b : Nat) => ((x - (b : Int)) % 65536 - 1) % 65536) ((a : Nat) : Int) := by
  induction l with
  | nil => intro a; rfl
  | cons b l ih =>
    intro a
    simp only [List.foldl_cons]
    rw [ih (wsub16 (wsub16 a b) 1), wsub_step]

/-- C2: the header-checksum predicate holds exactly when the low 8 bits
of the claim-side accumulator over bytes 0x0134..0x014C equal the stored
`header_checksum` byte. -/
theorem C2_header_checksum (buf : List Nat) (rom : Rom)
    (h : Rom.from_buffer buf = DResult.ok rom) :
    (rom.is_header_checksum_valid = true ↔
      headerChecksumSpecAcc (listSlice buf TITLE_ADDR HEADER_CHECKSUM_ADDR) % 256
        = (rom.header_checksum : Int)) := by
  obtain ⟨hlen, -, -, -, -, -, -, -, -, -, hdata, -⟩ := from_buffer_ok_inv h
  simp only [GLOBAL_CHECKSUM_ADDR] at hlen
  simp only [Rom.is_header_checksum_valid, decide_eq_true_eq]
  rw [hdata]
  have hslice : listSlice buf TITLE_ADDR HEADER_CHECKSUM_ADDR
      = (List.range' TITLE_ADDR (HEADER_CHECKSUM_ADDR - TITLE_ADDR)).map
          (fun i => buf.getD i 0) := by
    unfold listSlice
    exact slice_eq_map_getD buf TITLE_ADDR (HEADER_CHECKSUM_ADDR - TITLE_ADDR)
      (by simp only [TITLE_ADDR, HEADER_CHECKSUM_ADDR]; omega)
  have hfold : (List.range' TITLE_ADDR (HEADER_CHECKSUM_ADDR - TITLE_ADDR)).foldl
      (fun a i => wsub16 (wsub16 a (buf.getD i 0)) 1) 0
      = (listSlice buf TITLE_ADDR HEADER_CHECKSUM_ADDR).foldl
          (fun x b => wsub16 (wsub16 x b) 1) 0 := by
    rw [hslice, List.foldl_map]
  rw [hfold]
  have hint := foldl_wsub_eq_int (listSlice buf TITLE_ADDR HEADER_CHECKSUM_ADDR) 0
  rw [Nat.cast_zero] at hint
  unfold headerChecksumSpecAcc
  rw [← hint]
  omega

/-- C2 witness: `C2_header_checksum` at the concrete new-style buffer. -/
theorem C2_header_checksum_witness :
    newStyleZeroRom.is_header_checksum_valid = true ↔
      headerChecksumSpecAcc (listSlice newStyleZeroBuf TITLE_ADDR HEADER_CHECKSUM_ADDR) % 256
        = (newStyleZeroRom.header_checksum : Int) :=
  C2_header_checksum newStyleZeroBuf newStyleZeroRom newStyleZeroBuf_decode

/-! ## Global checksum (C3) -/

/-- Claim-side global-checksum value, from the spec's words: the sum of
every byte of the whole retained buffer except the two bytes at the
global-checksum offsets, reduced modulo 2^16. -/
def globalChecksumSpecSum (data : List Nat) : Nat :=
  (((data.enum.filter fun p =>
      decide (p.1 ≠ GLOBAL_CHECKSUM_ADDR ∧ p.1 ≠ GLOBAL_CHECKSUM_ADDR + 1)).map
    fun p => p.2).sum) % 65536

/-- The code's wrapping-add fold over enumerated bytes agrees with the
filtered sum reduced modulo 2^16. -/
theorem foldl_wadd_eq_sum (l : List (Nat × Nat)) : ∀ a : Nat, a < 65536 →
    l.foldl (fun x p => if p.1 ≠ GLOBAL_CHECKSUM_ADDR ∧ p.1 ≠ GLOBAL_CHECKSUM_ADDR + 1
        then wadd16 x p.2 else x) a
      = (a + ((l.filter fun p =>
          decide (p.1 ≠ GLOBAL_CHECKSUM_ADDR ∧ p.1 ≠ GLOBAL_CHECKSUM_ADDR + 1)).map
            fun p => p.2).sum) % 65536 := by
  induction l with
  | nil =>
    intro a ha
    simp [Nat.mod_eq_of_lt ha]
  | cons q l ih =>
    intro a ha
    by_cases hq : q.1 ≠ GLOBAL_CHECKSUM_ADDR ∧ q.1 ≠ GLOBAL_CHECKSUM_ADDR + 1
    · rw [List.foldl_cons, if_pos hq, ih _ (by unfold wadd16; omega),
        List.filter_cons_of_pos (by simpa using hq), List.map_cons, List.sum_cons]
      unfold wadd16
      omega
    · rw [List.foldl_cons, if_neg hq, ih _ ha,
        List.filter_cons_of_neg (by simpa using hq)]

/-- C3: the global-checksum predicate holds exactly when the mod-2^16
sum of all buffer bytes other than the two checksum bytes equals the
stored big-endian expected value (high byte at 0x014E). -/
theorem C3_global_checksum (buf : List Nat) (rom : Rom)
    (hbytes : ∀ b ∈ buf, b < 256)
    (h : Rom.from_buffer buf = DResult.ok rom) :
    (rom.is_global_checksum_valid = true ↔
      globalChecksumSpecSum buf
        = buf.getD GLOBAL_CHECKSUM_ADDR 0 * 256 + buf.getD (GLOBAL_CHECKSUM_ADDR + 1) 0) := by
  obtain ⟨hlen, -, -, -, -, -, -, -, -, hgc, hdata, -⟩ := from_buffer_ok_inv h
  have hlo : buf.getD (GLOBAL_CHECKSUM_ADDR + 1) 0 < 256 := by
    rw [List.getD_eq_getElem _ 0 hlen]
    exact hbytes _ (List.getElem_mem hlen)
  simp only [Rom.is_global_checksum_valid, decide_eq_true_eq]
  rw [hdata, hgc]
  rw [foldl_wadd_eq_sum buf.enum 0 (by omega)]
  rw [shiftLeft_lor_eq_add _ _ hlo]
  unfold globalChecksumSpecSum
  rw [Nat.zero_add]

/-- C3 witness: `C3_global_checksum` at the concrete new-style buffer. -/
theorem C3_global_checksum_witness :
    newStyleZeroRom.is_global_checksum_valid = true ↔
      globalChecksumSpecSum newStyleZeroBuf
        = newStyleZeroBuf.getD GLOBAL_CHECKSUM_ADDR 0 * 256
          + newStyleZeroBuf.getD (GLOBAL_CHECKSUM_ADDR + 1) 0 :=
  C3_global_checksum newStyleZeroBuf newStyleZeroRom (by decide) newStyleZeroBuf_decode

/-! ## Closed enumerated domains (spec section 6 tables) -/

/-- Spec-side domain of the colour-support flag. -/
def cgbDomain : List Nat := [0x00, 0x80, 0xC0]

/-- Spec-side domain of the super-support flag. -/
def sgbDomain : List Nat := [0x00, 0x03]

/-- Spec-side closed domain of cartridge-type codes. -/
def cartridgeTypeDomain : List Nat :=
  [0x00, 0x01, 0x02, 0x03, 0x05, 0x06, 0x08, 0x09, 0x0B, 0x0C, 0x0D, 0x0F, 0x10, 0x11, 0x12,
   0x13, 0x15, 0x16, 0x17, 0x19, 0x1A, 0x1B, 0x1C, 0x1D, 0x1E, 0x20, 0x22, 0xFC, 0xFD, 0xFE, 0xFF]

/-- Spec-side closed domain of ROM-size codes. -/
def romSizeDomain : List Nat := [0x00, 0x01, 0x02, 0x03, 0x04, 0x05, 0x06, 0x07, 0x52, 0x53, 0x54]

/-- Spec-side closed domain of RAM-size codes. -/
def ramSizeDomain : List Nat := [0x00, 0x01, 0x02, 0x03, 0x04, 0x05]

/-- Spec-side domain of destination codes. -/
def destinationCodeDomain : List Nat := [0x00, 0x01]

theorem cgb_from_u8_mem (n : Nat) : (CgbFlag.from_u8 n).isSome = true ↔ n ∈ cgbDomain := by
  unfold CgbFlag.from_u8 cgbDomain
  split <;> simp_all

theorem sgb_from_u8_mem (n : Nat) : (SgbFlag.from_u8 n).isSome = true ↔ n ∈ sgbDomain := by
  unfold SgbFlag.from_u8 sgbDomain
  split <;> simp_all

theorem cart_from_u8_mem (n : Nat) :
    (CartridgeType.from_u8 n).isSome = true ↔ n ∈ cartridgeTypeDomain := by
  unfold CartridgeType.from_u8 cartridgeTypeDomain
  split <;> simp_all

theorem romSize_from_u8_mem (n : Nat) : (RomSize.from_u8 n).isSome = true ↔ n ∈ romSizeDomain := by
  unfold RomSize.from_u8 romSizeDomain
  split <;> simp_all

theorem ramSize_from_u8_mem (n : Nat) : (RamSize.from_u8 n).isSome = true ↔ n ∈ ramSizeDomain := by
  unfold RamSize.from_u8 ramSizeDomain
  split <;> simp_all

theorem dst_from_u8_mem (n : Nat) :
    (DestinationCode.from_u8 n).isSome = true ↔ n ∈ destinationCodeDomain := by
  unfold DestinationCode.from_u8 destinationCodeDomain
  split <;> simp_all

/-- A lookup whose domain characterisation says the code is outside the
domain returns `none`. -/
theorem lookup_none_of_not_mem {α : Type} {f : Nat → Option α} {dom : List Nat}
    (hiff : ∀ n, (f n).isSome = true ↔ n ∈ dom) {n : Nat} (h : n ∉ dom) : f n = none := by
  rcases hfu : f n with _ | v
  · rfl
  · exact absurd ((hiff n).mp (by rw [hfu]; rfl)) h

/-- A lookup whose domain characterisation says the code is inside the
domain returns some value. -/
theorem lookup_some_of_mem {α : Type} {f : Nat → Option α} {dom : List Nat}
    (hiff : ∀ n, (f n).isSome = true ↔ n ∈ dom) {n : Nat} (h : n ∈ dom) :
    ∃ v, f n = some v :=
  Option.isSome_iff_exists.mp ((hiff n).mpr h)

@[simp] theorem require_some {α : Type} (v : α) (msg : String) :
    require (some v) msg = DResult.ok v := rfl

@[simp] theorem require_none {α : Type} (msg : String) :
    require (none : Option α) msg = DResult.fmtErr msg := rfl

/-- A fully in-bounds subarray read succeeds with the slice. -/
theorem get_subarray_ok_of_le {len start : Nat} {vec : List Nat}
    (h : start + len ≤ vec.length) :
    get_subarray_of_vector len start vec = DResult.ok ((vec.drop start).take len) := by
  unfold get_subarray_of_vector
  rw [if_neg (by omega), if_neg (by omega)]

/-- C7: each enumerated field's lookup succeeds exactly on its closed
domain (so no out-of-domain byte maps to a fallback variant), and once
the size check passes, the first field whose raw byte is outside its
domain aborts decoding with the failure naming that field and the
offending code, regardless of the bytes of all later fields. -/
theorem C7_enum_validation (buf : List Nat) (hlen : 0x0150 ≤ buf.length) :
    ((∀ n, (CgbFlag.from_u8 n).isSome = true ↔ n ∈ cgbDomain)
      ∧ (∀ n, (SgbFlag.from_u8 n).isSome = true ↔ n ∈ sgbDomain)
      ∧ (∀ n, (CartridgeType.from_u8 n).isSome = true ↔ n ∈ cartridgeTypeDomain)
      ∧ (∀ n, (RomSize.from_u8 n).isSome = true ↔ n ∈ romSizeDomain)
      ∧ (∀ n, (RamSize.from_u8 n).isSome = true ↔ n ∈ ramSizeDomain)
      ∧ (∀ n, (DestinationCode.from_u8 n).isSome = true ↔ n ∈ destinationCodeDomain))
    ∧ (buf.getD OLD_LICENSEE_CODE_ADDR 0 = NEW_CARTRIDGE_FLAG →
        buf.getD CGB_FLAG_ADDR 0 ∉ cgbDomain →
        Rom.from_buffer buf =
          DResult.fmtErr ("Invalid CGB flag: " ++ fmtHexU (buf.getD CGB_FLAG_ADDR 0)))
    ∧ ((buf.getD OLD_LICENSEE_CODE_ADDR 0 = NEW_CARTRIDGE_FLAG →
          buf.getD CGB_FLAG_ADDR 0 ∈ cgbDomain) →
        buf.getD SGB_FLAG_ADDR 0 ∉ sgbDomain →
        Rom.from_buffer buf =
          DResult.fmtErr ("Invalid SGB flag: " ++ fmtHexU (buf.getD SGB_FLAG_ADDR 0)))
    ∧ ((buf.getD OLD_LICENSEE_CODE_ADDR 0 = NEW_CARTRIDGE_FLAG →
          buf.getD CGB_FLAG_ADDR 0 ∈ cgbDomain) →
        buf.getD SGB_FLAG_ADDR 0 ∈ sgbDomain →
        buf.getD CARTRIDGE_TYPE_ADDR 0 ∉ cartridgeTypeDomain →
        Rom.from_buffer buf =
          DResult.fmtErr ("Invalid cartridge type flag: "
            ++ fmtHexU (buf.getD CARTRIDGE_TYPE_ADDR 0)))
    ∧ ((buf.getD OLD_LICENSEE_CODE_ADDR 0 = NEW_CARTRIDGE_FLAG →
          buf.getD CGB_FLAG_ADDR 0 ∈ cgbDomain) →
        buf.getD SGB_FLAG_ADDR 0 ∈ sgbDomain →
        buf.getD CARTRIDGE_TYPE_ADDR 0 ∈ cartridgeTypeDomain →
        buf.getD ROM_SIZE_ADDR 0 ∉ romSizeDomain →
        Rom.from_buffer buf =
          DResult.fmtErr ("Invalid ROM size flag: " ++ fmtHexU (buf.getD ROM_SIZE_ADDR 0)))
    ∧ ((buf.getD OLD_LICENSEE_CODE_ADDR 0 = NEW_CARTRIDGE_FLAG →
          buf.getD CGB_FLAG_ADDR 0 ∈ cgbDomain) →
        buf.getD SGB_FLAG_ADDR 0 ∈ sgbDomain →
        buf.getD CARTRIDGE_TYPE_ADDR 0 ∈ cartridgeTypeDomain →
        buf.getD ROM_SIZE_ADDR 0 ∈ romSizeDomain →
        buf.getD RAM_SIZE_ADDR 0 ∉ ramSizeDomain →
        Rom.from_buffer buf =
          DResult.fmtErr ("Invalid RAM size flag: " ++ fmtHexU (buf.getD RAM_SIZE_ADDR 0)))
    ∧ ((buf.getD OLD_LICENSEE_CODE_ADDR 0 = NEW_CARTRIDGE_FLAG →
          buf.getD CGB_FLAG_ADDR 0 ∈ cgbDomain) →
        buf.getD SGB_FLAG_ADDR 0 ∈ sgbDomain →
        buf.getD CARTRIDGE_TYPE_ADDR 0 ∈ cartridgeTypeDomain →
        buf.getD ROM_SIZE_ADDR 0 ∈ romSizeDomain →
        buf.getD RAM_SIZE_ADDR 0 ∈ ramSizeDomain →
        buf.getD DESTINATION_CODE_ADDR 0 ∉ destinationCodeDomain →
        Rom.from_buffer buf =
          DResult.fmtErr ("Invalid destination code: "
            ++ fmtHexU (buf.getD DESTINATION_CODE_ADDR 0))) := by
  have hnotle : ¬ buf.length ≤ GLOBAL_CHECKSUM_ADDR + 1 := by
    simp only [GLOBAL_CHECKSUM_ADDR]
    omega
  have hep : get_subarray_of_vector 4 ENTRY_POINT_ADDR buf
      = DResult.ok ((buf.drop ENTRY_POINT_ADDR).take 4) :=
    get_subarray_ok_of_le (by simp only [ENTRY_POINT_ADDR]; omega)
  have hlg : get_subarray_of_vector 48 NINTENDO_LOGO_ADDR buf
      = DResult.ok ((buf.drop NINTENDO_LOGO_ADDR).take 48) :=
    get_subarray_ok_of_le (by simp only [NINTENDO_LOGO_ADDR]; omega)
  refine ⟨⟨cgb_from_u8_mem, sgb_from_u8_mem, cart_from_u8_mem, romSize_from_u8_mem,
    ramSize_from_u8_mem, dst_from_u8_mem⟩, ?_, ?_, ?_, ?_, ?_, ?_⟩
  · intro hnc hcgb
    have hnone := lookup_none_of_not_mem cgb_from_u8_mem hcgb
    simp only [Rom.from_buffer, if_neg hnotle, hep, hlg, DResult.ok_bind, cgbFlagStep,
      decide_eq_true hnc, if_true, hnone, require_none, DResult.fmtErr_bind]
  · intro hpass hsgb
    have hnone := lookup_none_of_not_mem sgb_from_u8_mem hsgb
    by_cases hnc : buf.getD OLD_LICENSEE_CODE_ADDR 0 = NEW_CARTRIDGE_FLAG
    · obtain ⟨vc, hvc⟩ := lookup_some_of_mem cgb_from_u8_mem (hpass hnc)
      simp only [Rom.from_buffer, if_neg hnotle, hep, hlg, DResult.ok_bind, cgbFlagStep,
        decide_eq_true hnc, if_true, hvc, require_some, hnone, require_none,
        DResult.fmtErr_bind]
    · simp only [Rom.from_buffer, if_neg hnotle, hep, hlg, DResult.ok_bind, cgbFlagStep,
        decide_eq_false hnc, Bool.false_eq_true, if_false, DResult.pure_eq_ok, hnone,
        require_none, DResult.fmtErr_bind]
  · intro hpass hsgb hcart
    have hnone := lookup_none_of_not_mem cart_from_u8_mem hcart
    obtain ⟨vs, hvs⟩ := lookup_some_of_mem sgb_from_u8_mem hsgb
    by_cases hnc : buf.getD OLD_LICENSEE_CODE_ADDR 0 = NEW_CARTRIDGE_FLAG
    · obtain ⟨vc, hvc⟩ := lookup_some_of_mem cgb_from_u8_mem (hpass hnc)
      simp only [Rom.from_buffer, if_neg hnotle, hep, hlg, DResult.ok_bind, cgbFlagStep,
        decide_eq_true hnc, if_true, hvc, require_some, hvs, hnone, require_none,
        DResult.fmtErr_bind]
    · simp only [Rom.from_buffer, if_neg hnotle, hep, hlg, DResult.ok_bind, cgbFlagStep,
        decide_eq_false hnc, Bool.false_eq_true, if_false, DResult.pure_eq_ok, hvs,
        require_some, hnone, require_none, DResult.fmtErr_bind]
  · intro hpass hsgb hcart hrsz
    have hnone := lookup_none_of_not_mem romSize_from_u8_mem hrsz
    obtain ⟨vs, hvs⟩ := lookup_some_of_mem sgb_from_u8_mem hsgb
    obtain ⟨vt, hvt⟩ := lookup_some_of_mem cart_from_u8_mem hcart
    by_cases hnc : buf.getD OLD_LICENSEE_CODE_ADDR 0 = NEW_CARTRIDGE_FLAG
    · obtain ⟨vc, hvc⟩ := lookup_some_of_mem cgb_from_u8_mem (hpass hnc)
      simp only [Rom.from_buffer, if_neg hnotle, hep, hlg, DResult.ok_bind, cgbFlagStep,
        decide_eq_true hnc, if_true, hvc, require_some, hvs, hvt, hnone, require_none,
        DResult.fmtErr_bind]
    · simp only [Rom.from_buffer, if_neg hnotle, hep, hlg, DResult.ok_bind, cgbFlagStep,
        decide_eq_false hnc, Bool.false_eq_true, if_false, DResult.pure_eq_ok, hvs, hvt,
        require_some, hnone, require_none, DResult.fmtErr_bind]
  · intro hpass hsgb hcart hrsz hmsz
    have hnone := lookup_none_of_not_mem ramSize_from_u8_mem hmsz
    obtain ⟨vs, hvs⟩ := lookup_some_of_mem sgb_from_u8_mem hsgb
    obtain ⟨vt, hvt⟩ := lookup_some_of_mem cart_from_u8_mem hcart
    obtain ⟨vr, hvr⟩ := lookup_some_of_mem romSize_from_u8_mem hrsz
    by_cases hnc : buf.getD OLD_LICENSEE_CODE_ADDR 0 = NEW_CARTRIDGE_FLAG
    · obtain ⟨vc, hvc⟩ := lookup_some_of_mem cgb_from_u8_mem (hpass hnc)
      simp only [Rom.from_buffer, if_neg hnotle, hep, hlg, DResult.ok_bind, cgbFlagStep,
        decide_eq_true hnc, if_true, hvc, require_some, hvs, hvt, hvr, hnone, require_none,
        DResult.fmtErr_bind]
    · simp only [Rom.from_buffer, if_neg hnotle, hep, hlg, DResult.ok_bind, cgbFlagStep,
        decide_eq_false hnc, Bool.false_eq_true, if_false, DResult.pure_eq_ok, hvs, hvt, hvr,
        require_some, hnone, require_none, DResult.fmtErr_bind]
  · intro hpass hsgb hcart hrsz hmsz hdst
    have hnone := lookup_none_of_not_mem dst_from_u8_mem hdst
    obtain ⟨vs, hvs⟩ := lookup_some_of_mem sgb_from_u8_mem hsgb
    obtain ⟨vt, hvt⟩ := lookup_some_of_mem cart_from_u8_mem hcart
    obtain ⟨vr, hvr⟩ := lookup_some_of_mem romSize_from_u8_mem hrsz
    obtain ⟨vm, hvm⟩ := lookup_some_of_mem ramSize_from_u8_mem hmsz
    by_cases hnc : buf.getD OLD_LICENSEE_CODE_ADDR 0 = NEW_CARTRIDGE_FLAG
    · obtain ⟨vc, hvc⟩ := lookup_some_of_mem cgb_from_u8_mem (hpass hnc)
      simp only [Rom.from_buffer, if_neg hnotle, hep, hlg, DResult.ok_bind, cgbFlagStep,
        decide_eq_true hnc, if_true, hvc, require_some, hvs, hvt, hvr, hvm, hnone,
        require_none, DResult.fmtErr_bind]
    · simp only [Rom.from_buffer, if_neg hnotle, hep, hlg, DResult.ok_bind, cgbFlagStep,
        decide_eq_false hnc, Bool.false_eq_true, if_false, DResult.pure_eq_ok, hvs, hvt, hvr,
        hvm, require_some, hnone, require_none, DResult.fmtErr_bind]

/-- An all-zero minimum-length buffer whose cartridge-type byte holds the
out-of-domain code 0x04. -/
def badCartBuf : List Nat := (List.replicate 0x0150 0).set CARTRIDGE_TYPE_ADDR 0x04

/-- C7 witness: `C7_enum_validation` at `badCartBuf`, whose cartridge-type
byte 0x04 is outside the closed domain while all earlier fields pass. -/
theorem C7_enum_validation_witness :
    Rom.from_buffer badCartBuf =
      DResult.fmtErr ("Invalid cartridge type flag: "
        ++ fmtHexU (badCartBuf.getD CARTRIDGE_TYPE_ADDR 0)) :=
  (C7_enum_validation badCartBuf (by decide)).2.2.2.1
    (fun h => absurd h (by decide)) (by decide) (by decide)

/-! ## The concrete zero-buffer scenario (C8) -/

/-- Title extractor of a successful decode. -/
def decodedTitle (buf : List Nat) : Option (List Nat) :=
  match Rom.from_buffer buf with
  | DResult.ok rom => some rom.title
  | _ => none

/-- C8 counterexample: the claimed scenario's buffer decodes, but its
title is the string of eleven NUL characters, not the empty string (the
eleven zero bytes are valid UTF-8 and decode to eleven NUL characters). -/
theorem C8_zero_buffer_counterexample :
    decodedTitle newStyleZeroBuf = some (List.replicate 11 0)
    ∧ some (List.replicate 11 0) ≠ some ([] : List Nat) := by
  constructor
  · decide
  · decide

/-- C8 (amended): the buffer of 0x0150 zero bytes with 0x33 at offset
0x014B decodes successfully as a new-style record whose title is the
string of eleven NUL characters (all-zero bytes are valid text) and
whose super-support flag is `NoSgbSupport`. -/
theorem C8_zero_buffer_decode :
    Rom.from_buffer newStyleZeroBuf = DResult.ok newStyleZeroRom
    ∧ newStyleZeroRom.new_cartridge = true
    ∧ newStyleZeroRom.title = List.replicate 11 0
    ∧ newStyleZeroRom.sgb_flag = SgbFlag.NoSgbSupport :=
  ⟨newStyleZeroBuf_decode, rfl, by decide, rfl⟩
end Rustboy
